import Mathlib

/-!
Verification of the data-quality test evaluation engine of the repository
(`src/evidently/v2/tests/data_quality_tests.py`).

The engine is embedded shallowly: numbers are rationals (`ℚ`), Python `None`
is `Option.none`, a raised Python exception is modelled as `Except.error`
carrying a `PyError` value, and a caught exception is a `match` on that error.
Feature-statistics mappings become association lists from column names to a
record of the statistics the verified tests consume.

Definitions named after the source keep the source's structure.  The base
classes `TestResult` / `TestValueCondition` / `BaseCheckValueTest` and the
helper `approx` live in files of the repository that are not part of the
provided sources (`base_test.py`, `utils.py`); those are modelled from the
specification and are marked as such in their doc comments.
-/

namespace Evidently

/-- Decidable equality of `Except` values, used to evaluate the embedding on
concrete inputs. -/
instance instDecEqExcept {ε α : Type} [DecidableEq ε] [DecidableEq α] :
    DecidableEq (Except ε α) := fun x y =>
  match x, y with
  | Except.ok a, Except.ok b => decidable_of_iff (a = b) (by simp)
  | Except.error a, Except.error b => decidable_of_iff (a = b) (by simp)
  | Except.ok _, Except.error _ => Decidable.isFalse (by simp)
  | Except.error _, Except.ok _ => Decidable.isFalse (by simp)

/-- Status vocabulary of a test result: see the spec, Result is
`{SUCCESS, FAIL, ERROR, SKIPPED}`. -/
inductive TestStatus where
  | SUCCESS
  | FAIL
  | ERROR
  | SKIPPED
deriving DecidableEq, Repr

/-- A Python exception value.  `valueError` is caught by `except ValueError`
blocks; any other exception propagates to the caller. -/
inductive PyError where
  | valueError (msg : String)
  | keyError (key : String)
deriving DecidableEq, Repr

/-- The terminal outcome record of one test: `TestResult(name, description, status)`. -/
structure TestResult where
  name : String
  description : String
  status : TestStatus
deriving DecidableEq, Repr

/-- Modelled from the spec: `TestResult.mark_as_error` of `base_test.py`
(not under the provided sources) sets the description and advances the
status to ERROR. -/
def TestResult.mark_as_error (r : TestResult) (description : String) : TestResult :=
  { r with description := description, status := TestStatus.ERROR }

/-- Modelled from the spec: `TestResult.mark_as_fail` of `base_test.py`
(not under the provided sources) advances the status to FAIL. -/
def TestResult.mark_as_fail (r : TestResult) : TestResult :=
  { r with status := TestStatus.FAIL }

/-- Modelled from the spec: `TestResult.mark_as_success` of `base_test.py`
(not under the provided sources) advances the status to SUCCESS. -/
def TestResult.mark_as_success (r : TestResult) : TestResult :=
  { r with status := TestStatus.SUCCESS }

/-- Absolute value of a rational, kept as an explicit definition so concrete
instances evaluate by `decide`. -/
def rabs (q : ℚ) : ℚ := if q < 0 then -q else q

/-- Modelled from the spec: a tolerant value (`approx` of `utils.py`, not
under the provided sources) wraps a target number with a relative tolerance
(fraction of the target) and an absolute tolerance. -/
structure ApproxValue where
  value : ℚ
  relative : ℚ
  absolute : ℚ
deriving DecidableEq, Repr

/-- Modelled from the spec: the default relative tolerance of a tolerant
value; the spec only calls it a "small fixed tolerance band". -/
def DEFAULT_RELATIVE : ℚ := 1 / 1000000

/-- Modelled from the spec: the default absolute tolerance of a tolerant
value; the spec only calls it a "small fixed tolerance band". -/
def DEFAULT_ABSOLUTE : ℚ := 1 / 1000000000000

/-- Modelled from the spec: the half-width of the union of the relative band
(radius `|value| * relative`) and the absolute band (radius `absolute`). -/
def ApproxValue.tolerance (a : ApproxValue) : ℚ :=
  max (rabs a.value * a.relative) a.absolute

/-- Modelled from the spec: equality against a tolerant value succeeds iff
the observed value lies within the union of the relative and absolute bands,
i.e. within `tolerance` of the target. -/
def ApproxValue.check_eq (a : ApproxValue) (other : ℚ) : Bool :=
  decide (a.value - a.tolerance ≤ other) && decide (other ≤ a.value + a.tolerance)

/-- Modelled from the spec: `approx(value, relative=r)` — a tolerant value
with an explicit relative tolerance and the default absolute tolerance. -/
def approx (value relative : ℚ) : ApproxValue :=
  ⟨value, relative, DEFAULT_ABSOLUTE⟩

/-- Modelled from the spec: `approx(value)` with both tolerances left at
their small fixed defaults. -/
def approxDefault (value : ℚ) : ApproxValue :=
  ⟨value, DEFAULT_RELATIVE, DEFAULT_ABSOLUTE⟩

/-- An operand of the `eq` / `not_eq` fields of a condition: either a plain
number or a tolerant value. -/
inductive CondValue where
  | num (v : ℚ)
  | approxVal (a : ApproxValue)
deriving DecidableEq, Repr

/-- Equality check of a condition operand against an observed value. -/
def CondValue.check_eq (cv : CondValue) (v : ℚ) : Bool :=
  match cv with
  | CondValue.num x => decide (v = x)
  | CondValue.approxVal a => a.check_eq v

/-- Modelled from the spec: `TestValueCondition` of `base_test.py` (not under
the provided sources) — an immutable threshold specification with optional
fields `eq, not_eq, gt, gte, is_in, lt, lte, not_in`. -/
structure TestValueCondition where
  eq : Option CondValue
  not_eq : Option ℚ
  gt : Option ℚ
  gte : Option ℚ
  is_in : Option (List ℚ)
  lt : Option ℚ
  lte : Option ℚ
  not_in : Option (List ℚ)
deriving DecidableEq, Repr

/-- The condition with no field configured ("unset"). -/
def TestValueCondition.unset : TestValueCondition :=
  ⟨none, none, none, none, none, none, none, none⟩

/-- Modelled from the spec: `is_set()` reports whether any field is configured. -/
def TestValueCondition.is_set (c : TestValueCondition) : Bool :=
  c.eq.isSome || c.not_eq.isSome || c.gt.isSome || c.gte.isSome ||
  c.is_in.isSome || c.lt.isSome || c.lte.isSome || c.not_in.isSome

/-- Modelled from the spec: `check_value(v)` is true iff every configured
field's predicate holds for `v` (AND semantics); an absent field is no
constraint.  Over rationals every configured predicate is computable, so the
"evaluation error" case of the spec cannot arise here. -/
def TestValueCondition.check_value (c : TestValueCondition) (value : ℚ) : Bool :=
  (match c.eq with | none => true | some cv => cv.check_eq value) &&
  (match c.not_eq with | none => true | some x => !decide (value = x)) &&
  (match c.gt with | none => true | some x => decide (x < value)) &&
  (match c.gte with | none => true | some x => decide (x ≤ value)) &&
  (match c.is_in with | none => true | some xs => xs.contains value) &&
  (match c.lt with | none => true | some x => decide (value < x)) &&
  (match c.lte with | none => true | some x => decide (value ≤ x)) &&
  (match c.not_in with | none => true | some xs => !xs.contains value)

/-- Decimal-free rendering of a rational for description strings. -/
def ratStr (q : ℚ) : String :=
  if q.den = 1 then toString q.num else toString q.num ++ "/" ++ toString q.den

/-- Rendering of a condition operand for description strings. -/
def condValueStr : CondValue → String
  | CondValue.num v => ratStr v
  | CondValue.approxVal a => ratStr a.value ++ " +/- " ++ ratStr a.tolerance

/-- Modelled from the spec: the string form of a condition used inside test
descriptions (`str(TestValueCondition)` of `base_test.py`, not under the
provided sources; the spec does not fix its exact format). -/
def conditionStr (c : TestValueCondition) : String :=
  String.intercalate ", " (List.filterMap id
    [c.eq.map (fun v => "eq=" ++ condValueStr v),
     c.not_eq.map (fun v => "not_eq=" ++ ratStr v),
     c.gt.map (fun v => "gt=" ++ ratStr v),
     c.gte.map (fun v => "gte=" ++ ratStr v),
     c.lt.map (fun v => "lt=" ++ ratStr v),
     c.lte.map (fun v => "lte=" ++ ratStr v)])

/-- `np.round(x, 3)` of the description strings, on rationals
(round half up to three decimal places). -/
def np_round3 (x : ℚ) : ℚ :=
  ((Int.fdiv (x * 1000 + 1/2).num (x * 1000 + 1/2).den : ℤ) : ℚ) / 1000

/-- The per-feature statistics the verified tests consume (a slice of
`FeatureQualityStats`); `mean`, `std` and `most_common_value_percentage`
are the fields read by the tests under verification. -/
structure FeatureQualityStats where
  mean : ℚ
  std : ℚ
  most_common_value_percentage : ℚ
deriving DecidableEq, Repr

/-- A keyed per-feature statistics mapping (`DataFeatureStats`), as an
association list from column name to statistics. -/
structure DataFeatureStats where
  features : List (String × FeatureQualityStats)
deriving DecidableEq, Repr

/-- `get_all_features()` — the keys of the mapping. -/
def DataFeatureStats.get_all_features (s : DataFeatureStats) : List String :=
  s.features.map Prod.fst

/-- Dictionary lookup `stats[column]`, fallible form. -/
def DataFeatureStats.get? (s : DataFeatureStats) (column : String) : Option FeatureQualityStats :=
  (s.features.find? (fun p => p.1 == column)).map Prod.snd

/-- Dictionary indexing `stats[column]` as used after a successful membership
check (the Python `[]` cannot fail there); outside the domain it yields a
zero record, a case the source never reaches. -/
def DataFeatureStats.getStats (s : DataFeatureStats) (column : String) : FeatureQualityStats :=
  (s.get? column).getD ⟨0, 0, 0⟩

/-- The cached result snapshot of `DataQualityMetrics`: current feature
statistics plus optional mirrored reference statistics. -/
structure DataQualityMetricsResults where
  features_stats : DataFeatureStats
  reference_features_stats : Option DataFeatureStats
deriving DecidableEq, Repr

/-- `BaseFeatureDataQualityMetricsTest.check` (source lines 196-225): seed a
SKIPPED "not launched" result; if the column is absent from the feature
statistics, mark the result as FAIL with a description naming the column and
return; if the computed value is `None`, mark as ERROR and return; otherwise
set the subclass description, resolve the condition and evaluate it
(`except ValueError` around the condition becomes ERROR "Cannot calculate
the condition"; any other exception propagates).  The subclass hooks
`calculate_value_for_test`, `get_description` and `get_condition` are
explicit function arguments. -/
def featureCheck (name column_name : String)
    (calculate_value_for_test : DataQualityMetricsResults → Option ℚ)
    (get_description : DataQualityMetricsResults → ℚ → Except PyError String)
    (get_condition : DataQualityMetricsResults → Except PyError TestValueCondition)
    (metric_result : DataQualityMetricsResults) : Except PyError TestResult :=
  let result : TestResult := ⟨name, "The test was not launched", TestStatus.SKIPPED⟩
  if column_name ∈ metric_result.features_stats.get_all_features then
    match calculate_value_for_test metric_result with
    | none =>
        Except.ok (result.mark_as_error
          ("No value for the feature \x27" ++ column_name ++ "\x27"))
    | some value =>
        match get_description metric_result value with
        | Except.error e => Except.error e
        | Except.ok desc =>
            let result := { result with description := desc }
            match get_condition metric_result with
            | Except.ok condition =>
                Except.ok (if condition.check_value value then
                  result.mark_as_success
                else
                  result.mark_as_fail)
            | Except.error (PyError.valueError _) =>
                Except.ok (result.mark_as_error "Cannot calculate the condition")
            | Except.error e => Except.error e
  else
    Except.ok { result.mark_as_fail with
      description := "Feature \x27" ++ column_name ++ "\x27 was not found" }

/-- Modelled from the spec: the base `get_condition` of `BaseCheckValueTest`
(`base_test.py`, not under the provided sources) — step 5 of the canonical
algorithm uses the explicitly configured condition when one is set; a test
without a subclass default and without configured bounds cannot resolve a
condition, which surfaces as an evaluation error. -/
def base_get_condition (condition : TestValueCondition) : Except PyError TestValueCondition :=
  if condition.is_set then Except.ok condition
  else Except.error (PyError.valueError "No condition was configured")

/-- `TestFeatureValueMean.calculate_value_for_test`: the mean statistic of
the bound column. -/
def TestFeatureValueMean.calculate_value_for_test (column_name : String)
    (m : DataQualityMetricsResults) : Option ℚ :=
  (m.features_stats.get? column_name).map FeatureQualityStats.mean

/-- `TestFeatureValueMean.get_description`. -/
def TestFeatureValueMean.get_description (column_name : String) (value : ℚ) : String :=
  "Mean value for feature \x27" ++ column_name ++ "\x27 is " ++ ratStr value

/-- `TestFeatureValueMean` evaluation: the shared feature-level `check` with
the mean accessor and the base condition resolution. -/
def TestFeatureValueMean.check (column_name : String) (condition : TestValueCondition)
    (m : DataQualityMetricsResults) : Except PyError TestResult :=
  featureCheck "Test a feature mean value" column_name
    (TestFeatureValueMean.calculate_value_for_test column_name)
    (fun _ value => Except.ok (TestFeatureValueMean.get_description column_name value))
    (fun _ => base_get_condition condition)
    m

/-- `TestMostCommonValueShare.get_condition` (source lines 491-501): an
explicitly set condition wins; otherwise, with reference statistics present,
a tolerant equality to the reference most-common-value share with relative
tolerance 0.1; otherwise the fixed bound `lt=0.8`.  Indexing the reference
statistics with an absent column raises a KeyError. -/
def TestMostCommonValueShare.get_condition (column_name : String)
    (condition : TestValueCondition) (m : DataQualityMetricsResults) :
    Except PyError TestValueCondition :=
  if condition.is_set then Except.ok condition
  else
    match m.reference_features_stats with
    | some ref =>
        match ref.get? column_name with
        | some stats =>
            Except.ok { TestValueCondition.unset with
              eq := some (CondValue.approxVal
                (approx (stats.most_common_value_percentage / 100) (1/10))) }
        | none => Except.error (PyError.keyError column_name)
    | none => Except.ok { TestValueCondition.unset with lt := some (8/10) }

/-- `TestMostCommonValueShare.calculate_value_for_test`: the current
most-common-value percentage of the bound column, as a share. -/
def TestMostCommonValueShare.calculate_value_for_test (column_name : String)
    (m : DataQualityMetricsResults) : Option ℚ :=
  (m.features_stats.get? column_name).map
    (fun s => s.most_common_value_percentage / 100)

/-- `TestMostCommonValueShare.get_description`; it re-resolves the condition
to print the threshold, so an exception from `get_condition` propagates. -/
def TestMostCommonValueShare.get_description (column_name : String)
    (condition : TestValueCondition) (m : DataQualityMetricsResults) (value : ℚ) :
    Except PyError String :=
  match TestMostCommonValueShare.get_condition column_name condition m with
  | Except.error e => Except.error e
  | Except.ok c =>
      Except.ok ("Share of the Most Common Value for column " ++ column_name ++
        " is " ++ ratStr (np_round3 value) ++ ".             Test Threshold is [" ++
        conditionStr c ++ "].")

/-- `TestMostCommonValueShare` evaluation: the shared feature-level `check`
with the share accessor and the reference-relative default condition. -/
def TestMostCommonValueShare.check (column_name : String) (condition : TestValueCondition)
    (m : DataQualityMetricsResults) : Except PyError TestResult :=
  featureCheck "Test Share of the Most Common Value" column_name
    (TestMostCommonValueShare.calculate_value_for_test column_name)
    (TestMostCommonValueShare.get_description column_name condition)
    (TestMostCommonValueShare.get_condition column_name condition)
    m

/-- `TestMeanInNSigmas.check` (source lines 542-575): absent reference
statistics raise a ValueError; a column absent from the current or reference
statistics yields an ERROR result naming which side is missing; otherwise
SUCCESS iff the current mean lies strictly between
`reference_mean - reference_std * n_sigmas` and
`reference_mean + reference_std * n_sigmas`, and FAIL otherwise. -/
def TestMeanInNSigmas.check (column_name : String) (n_sigmas : ℚ)
    (m : DataQualityMetricsResults) : Except PyError TestResult :=
  match m.reference_features_stats with
  | none => Except.error (PyError.valueError "Reference should be present")
  | some reference_feature_stats =>
      if column_name ∈ m.features_stats.get_all_features then
        if column_name ∈ reference_feature_stats.get_all_features then
          let current_mean := (m.features_stats.getStats column_name).mean
          let reference_mean := (reference_feature_stats.getStats column_name).mean
          let reference_std := (reference_feature_stats.getStats column_name).std
          let sigmas_value := reference_std * n_sigmas
          let left_condition := reference_mean - sigmas_value
          let right_condition := reference_mean + sigmas_value
          if left_condition < current_mean ∧ current_mean < right_condition then
            Except.ok ⟨"Test Mean Value Stability",
              "Mean value of column " ++ column_name ++ " " ++
              ratStr (np_round3 current_mean) ++ " is in range from " ++
              ratStr (np_round3 left_condition) ++ "                                 to " ++
              ratStr (np_round3 right_condition), TestStatus.SUCCESS⟩
          else
            Except.ok ⟨"Test Mean Value Stability",
              "Mean value of column " ++ column_name ++ " " ++
              ratStr (np_round3 current_mean) ++ " is not in range from " ++
              ratStr (np_round3 left_condition) ++ "                                 to " ++
              ratStr (np_round3 right_condition), TestStatus.FAIL⟩
        else
          Except.ok ⟨"Test Mean Value Stability",
            "Column " ++ column_name ++ " should be in reference data", TestStatus.ERROR⟩
      else
        Except.ok ⟨"Test Mean Value Stability",
          "Column " ++ column_name ++ " should be in current data", TestStatus.ERROR⟩

/-- Modelled from the spec: `BaseCheckValueTest.check` (`base_test.py`, not
under the provided sources) — the canonical algorithm of the spec for tests
without a feature-presence precondition: seed a SKIPPED "not launched"
result; an undefined value yields ERROR; otherwise set the description,
resolve the condition and evaluate it, catching a ValueError into ERROR
"Cannot calculate the condition". -/
def baseCheckValue_check (name : String)
    (calculate_value_for_test : Option ℚ)
    (get_description : ℚ → Except PyError String)
    (get_condition : Except PyError TestValueCondition) : Except PyError TestResult :=
  let result : TestResult := ⟨name, "The test was not launched", TestStatus.SKIPPED⟩
  match calculate_value_for_test with
  | none => Except.ok (result.mark_as_error "No value for the test")
  | some value =>
      match get_description value with
      | Except.error e => Except.error e
      | Except.ok desc =>
          let result := { result with description := desc }
          match get_condition with
          | Except.ok condition =>
              Except.ok (if condition.check_value value then
                result.mark_as_success
              else
                result.mark_as_fail)
          | Except.error (PyError.valueError _) =>
              Except.ok (result.mark_as_error "Cannot calculate the condition")
          | Except.error e => Except.error e

/-- The cached result snapshot of `DataQualityValueRangeMetrics`. -/
structure DataQualityValueRangeMetricsResults where
  number_not_in_range : ℕ
  share_not_in_range : ℚ
deriving DecidableEq, Repr

/-- The cached result snapshot of `DataQualityValueListMetrics`. -/
structure DataQualityValueListMetricsResults where
  number_not_in_list : ℕ
  share_not_in_list : ℚ
deriving DecidableEq, Repr

/-- `TestShareOfOutRangeValues.get_condition` (source lines 763-766): an
explicitly set condition wins; otherwise a tolerant equality to 0 with the
default tolerances. -/
def TestShareOfOutRangeValues.get_condition (condition : TestValueCondition) :
    TestValueCondition :=
  if condition.is_set then condition
  else { TestValueCondition.unset with
    eq := some (CondValue.approxVal (approxDefault 0)) }

/-- `TestShareOfOutRangeValues.get_description`. -/
def TestShareOfOutRangeValues.get_description (column_name : String)
    (condition : TestValueCondition) (value : ℚ) : String :=
  "Share of Out-Of-Range Values for feature " ++ column_name ++ " is " ++
    ratStr (np_round3 value) ++ ".         Test Threshold is [" ++
    conditionStr (TestShareOfOutRangeValues.get_condition condition) ++ "]."

/-- `TestShareOfOutRangeValues` evaluation via the canonical base check. -/
def TestShareOfOutRangeValues.check (column_name : String)
    (condition : TestValueCondition) (m : DataQualityValueRangeMetricsResults) :
    Except PyError TestResult :=
  baseCheckValue_check "Test Share of Out-Of-Range Values"
    (some m.share_not_in_range)
    (fun value => Except.ok
      (TestShareOfOutRangeValues.get_description column_name condition value))
    (Except.ok (TestShareOfOutRangeValues.get_condition condition))

/-- `TestShareOfOutListValues.get_condition` (source lines 913-916): an
explicitly set condition wins; otherwise a tolerant equality to 0 with the
default tolerances. -/
def TestShareOfOutListValues.get_condition (condition : TestValueCondition) :
    TestValueCondition :=
  if condition.is_set then condition
  else { TestValueCondition.unset with
    eq := some (CondValue.approxVal (approxDefault 0)) }

/-- `TestShareOfOutListValues.get_description`. -/
def TestShareOfOutListValues.get_description (column_name : String)
    (condition : TestValueCondition) (value : ℚ) : String :=
  "Share of Out-Of-List Values for feature " ++ column_name ++ " is " ++
    ratStr (np_round3 value) ++ ". Test Threshold             is [" ++
    conditionStr (TestShareOfOutListValues.get_condition condition) ++ "]."

/-- `TestShareOfOutListValues` evaluation via the canonical base check. -/
def TestShareOfOutListValues.check (column_name : String)
    (condition : TestValueCondition) (m : DataQualityValueListMetricsResults) :
    Except PyError TestResult :=
  baseCheckValue_check "Test Share of Out-Of-List Values"
    (some m.share_not_in_list)
    (fun value => Except.ok
      (TestShareOfOutListValues.get_description column_name condition value))
    (Except.ok (TestShareOfOutListValues.get_condition condition))

/-- The cached result snapshot of `DataQualityCorrelationMetrics`; only the
fields read by the correlation tests are embedded. -/
structure DataQualityCorrelationMetricsResults where
  target_prediction_correlation : Option ℚ
  abs_max_num_features_correlation : Option ℚ
deriving DecidableEq, Repr

/-- `HighlyCorrelatedFeatures.calculate_value_for_test` (source lines 158-159). -/
def HighlyCorrelatedFeatures.calculate_value_for_test
    (m : DataQualityCorrelationMetricsResults) : Option ℚ :=
  m.abs_max_num_features_correlation

/-- `HighlyCorrelatedFeatures.get_description` (source lines 161-162). -/
def HighlyCorrelatedFeatures.get_description (value : ℚ) : String :=
  "Max numeric features correlation is " ++ ratStr value

/-- `CorrelationChanges.calculate_value_for_test` (source lines 168-169). -/
def CorrelationChanges.calculate_value_for_test
    (m : DataQualityCorrelationMetricsResults) : Option ℚ :=
  m.abs_max_num_features_correlation

/-- `CorrelationChanges.get_description` (source lines 171-172). -/
def CorrelationChanges.get_description (value : ℚ) : String :=
  "Max numeric features correlation is " ++ ratStr value

/-- Configuration record of `DataQualityValueQuantileMetrics(column, quantile)`. -/
structure DataQualityValueQuantileMetrics where
  column : Option String
  quantile : Option ℚ
deriving DecidableEq, Repr

/-- The constructed state of a `TestValueQuantile` instance. -/
structure TestValueQuantileState where
  column_name : Option String
  quantile : Option ℚ
  metric : DataQualityValueQuantileMetrics
deriving DecidableEq, Repr

/-- `TestValueQuantile.__init__` (source lines 933-959): with an explicit
metric, any non-None `column_name` or `quantile` raises a ValueError;
otherwise the metric is taken as given.  Without an explicit metric a fresh
`DataQualityValueQuantileMetrics(column=column_name, quantile=quantile)` is
built. -/
def TestValueQuantile.init (column_name : Option String) (quantile : Option ℚ)
    (metric : Option DataQualityValueQuantileMetrics) :
    Except PyError TestValueQuantileState :=
  match metric with
  | some metricGiven =>
      if column_name.isSome || quantile.isSome then
        Except.error (PyError.valueError "Test parameters and given  metric conflict")
      else
        Except.ok ⟨column_name, quantile, metricGiven⟩
  | none =>
      Except.ok ⟨column_name, quantile, ⟨column_name, quantile⟩⟩

/-- Configuration record of `DataQualityValueRangeMetrics(column, left, right)`. -/
structure DataQualityValueRangeMetrics where
  column : String
  left : Option ℚ
  right : Option ℚ
deriving DecidableEq, Repr

/-- The constructed state of a `TestValueRange` instance. -/
structure TestValueRangeState where
  column_name : String
  left : Option ℚ
  right : Option ℚ
  metric : DataQualityValueRangeMetrics
deriving DecidableEq, Repr

/-- `TestValueRange.__init__` (source lines 624-639): an explicit metric is
stored as given, with no conflict check against `column_name`, `left` or
`right`; without one a fresh
`DataQualityValueRangeMetrics(column=column_name, left=left, right=right)`
is built.  No path raises. -/
def TestValueRange.init (column_name : String) (left right : Option ℚ)
    (metric : Option DataQualityValueRangeMetrics) :
    Except PyError TestValueRangeState :=
  match metric with
  | some metricGiven => Except.ok ⟨column_name, left, right, metricGiven⟩
  | none => Except.ok ⟨column_name, left, right, ⟨column_name, left, right⟩⟩

/-- A Metric instance holding its computed-once cached result; `get_result`
returns the snapshot and the (unchanged) instance. -/
structure Metric (α : Type) where
  cached : α
deriving DecidableEq, Repr

/-- `Metric.get_result()`: reads the cached snapshot; the cache is never
mutated by a read. -/
def Metric.get_result {α : Type} (m : Metric α) : α × Metric α :=
  (m.cached, m)

/-- One `check()` call of a feature-level test, with the Metric state
threaded explicitly: the call reads the cached result and performs the
shared feature-level `check`; the source assigns nothing to `self`, so the
test configuration and the Metric come back unchanged. -/
def featureCheck_call (name column_name : String)
    (calculate_value_for_test : DataQualityMetricsResults → Option ℚ)
    (get_description : DataQualityMetricsResults → ℚ → Except PyError String)
    (get_condition : DataQualityMetricsResults → Except PyError TestValueCondition)
    (m : Metric DataQualityMetricsResults) :
    Except PyError TestResult × Metric DataQualityMetricsResults :=
  let p := m.get_result
  (featureCheck name column_name calculate_value_for_test get_description
    get_condition p.1, p.2)

/-- One `check()` call of `TestMeanInNSigmas`, with the Metric state
threaded explicitly. -/
def TestMeanInNSigmas.check_call (column_name : String) (n_sigmas : ℚ)
    (m : Metric DataQualityMetricsResults) :
    Except PyError TestResult × Metric DataQualityMetricsResults :=
  let p := m.get_result
  (TestMeanInNSigmas.check column_name n_sigmas p.1, p.2)

/-! Concrete inputs used to evaluate the embedding. -/

/-- A metric result whose feature-statistics mapping holds only `"height"`,
with no reference data. -/
def mNoAge : DataQualityMetricsResults :=
  ⟨⟨[("height", ⟨3, 1, 50⟩)]⟩, none⟩

/-- Reference statistics with most-common-value percentage 42. -/
def refStats42 : FeatureQualityStats := ⟨0, 0, 42⟩

/-- A reference mapping carrying `refStats42` for column `"age"`. -/
def refMap42 : DataFeatureStats := ⟨[("age", refStats42)]⟩

/-- Current share 0.46 against reference share 0.42. -/
def m46 : DataQualityMetricsResults :=
  ⟨⟨[("age", ⟨0, 0, 46⟩)]⟩, some refMap42⟩

/-- Current share 0.50 against reference share 0.42. -/
def m50 : DataQualityMetricsResults :=
  ⟨⟨[("age", ⟨0, 0, 50⟩)]⟩, some refMap42⟩

/-- Reference statistics with mean 50 and standard deviation 5. -/
def refMap50s5 : DataFeatureStats := ⟨[("age", ⟨50, 5, 0⟩)]⟩

/-- Current mean 61 against reference mean 50, std 5. -/
def m61 : DataQualityMetricsResults :=
  ⟨⟨[("age", ⟨61, 1, 0⟩)]⟩, some refMap50s5⟩

/-- Current mean 55 against reference mean 50, std 5. -/
def m55 : DataQualityMetricsResults :=
  ⟨⟨[("age", ⟨55, 1, 0⟩)]⟩, some refMap50s5⟩

/-- A range metric for column `"height"` — it conflicts with construction
parameters naming column `"age"`. -/
def conflictingRangeMetric : DataQualityValueRangeMetrics :=
  ⟨"height", some (-5), some 5⟩

/-- A metric result with reference statistics present but an empty current
feature mapping. -/
def mEmptyWithRef : DataQualityMetricsResults := ⟨⟨[]⟩, some ⟨[]⟩⟩

/-- A metric result whose feature mapping holds only `"age"`. -/
def mAgeOnly : DataQualityMetricsResults := ⟨⟨[("age", ⟨1, 1, 1⟩)]⟩, none⟩

/-! Claims. -/

/-- Claim C1 counterexample: a feature-level test for column `"age"` against
a metric result whose feature-statistics mapping lacks `"age"` returns a
result with status FAIL — not ERROR as the claim states: the source calls
`mark_as_fail()` on this path. -/
theorem claim_C1_counterexample :
    TestFeatureValueMean.check "age" TestValueCondition.unset mNoAge =
      Except.ok ⟨"Test a feature mean value", "Feature \x27age\x27 was not found",
        TestStatus.FAIL⟩ ∧
    TestStatus.FAIL ≠ TestStatus.ERROR := by
  decide

/-- Claim C1 (amended): for every feature-level test whose column is absent
from the metric result's feature-statistics mapping, `check()` returns a
result with status FAIL whose description names the missing column, and it
does so independently of the value, description and condition hooks — no
further evaluation steps run. -/
theorem claim_C1_missing_feature_fails (name column_name : String)
    (calculate_value_for_test : DataQualityMetricsResults → Option ℚ)
    (get_description : DataQualityMetricsResults → ℚ → Except PyError String)
    (get_condition : DataQualityMetricsResults → Except PyError TestValueCondition)
    (m : DataQualityMetricsResults)
    (h : column_name ∉ m.features_stats.get_all_features) :
    featureCheck name column_name calculate_value_for_test get_description
        get_condition m =
      Except.ok ⟨name, "Feature \x27" ++ column_name ++ "\x27 was not found",
        TestStatus.FAIL⟩ := by
  simp only [featureCheck]
  rw [if_neg h]
  rfl

/-- Claim C1 witness: the amended claim evaluated for column `"age"` against
the `"height"`-only metric result. -/
theorem claim_C1_missing_feature_fails_witness :
    featureCheck "Test a feature mean value" "age"
        (TestFeatureValueMean.calculate_value_for_test "age")
        (fun _ value => Except.ok (TestFeatureValueMean.get_description "age" value))
        (fun _ => base_get_condition TestValueCondition.unset) mNoAge =
      Except.ok ⟨"Test a feature mean value", "Feature \x27age\x27 was not found",
        TestStatus.FAIL⟩ :=
  claim_C1_missing_feature_fails "Test a feature mean value" "age" _ _ _ mNoAge
    (by decide)

/-- Claim C2: with no explicit condition, `TestMostCommonValueShare` derives
a tolerant equality to the reference most-common-value share with relative
tolerance 0.1 when reference statistics are present, and `lt=0.8` otherwise;
with reference share 0.42, a current share of 0.46 yields SUCCESS and 0.50
yields FAIL. -/
theorem claim_C2_most_common_default (column_name : String)
    (condition : TestValueCondition) (m : DataQualityMetricsResults)
    (ref : DataFeatureStats) (stats : FeatureQualityStats)
    (hcond : condition.is_set = false) :
    (m.reference_features_stats = some ref → ref.get? column_name = some stats →
      TestMostCommonValueShare.get_condition column_name condition m =
        Except.ok { TestValueCondition.unset with
          eq := some (CondValue.approxVal
            (approx (stats.most_common_value_percentage / 100) (1/10))) }) ∧
    (m.reference_features_stats = none →
      TestMostCommonValueShare.get_condition column_name condition m =
        Except.ok { TestValueCondition.unset with lt := some (8/10) }) ∧
    (TestMostCommonValueShare.check "age" TestValueCondition.unset m46).map
      TestResult.status = Except.ok TestStatus.SUCCESS ∧
    (TestMostCommonValueShare.check "age" TestValueCondition.unset m50).map
      TestResult.status = Except.ok TestStatus.FAIL := by
  refine ⟨?_, ?_, ?_, ?_⟩
  · intro h1 h2
    simp [TestMostCommonValueShare.get_condition, hcond, h1, h2]
  · intro h1
    simp [TestMostCommonValueShare.get_condition, hcond, h1]
  · norm_num [TestMostCommonValueShare.check, featureCheck,
      TestMostCommonValueShare.calculate_value_for_test,
      TestMostCommonValueShare.get_description, TestMostCommonValueShare.get_condition,
      m46, refMap42, refStats42, DataFeatureStats.get_all_features, DataFeatureStats.get?,
      TestValueCondition.is_set, TestValueCondition.unset, TestValueCondition.check_value,
      CondValue.check_eq, ApproxValue.check_eq, ApproxValue.tolerance, approx, rabs,
      DEFAULT_ABSOLUTE, TestResult.mark_as_success, TestResult.mark_as_fail, Except.map]
  · norm_num [TestMostCommonValueShare.check, featureCheck,
      TestMostCommonValueShare.calculate_value_for_test,
      TestMostCommonValueShare.get_description, TestMostCommonValueShare.get_condition,
      m50, refMap42, refStats42, DataFeatureStats.get_all_features, DataFeatureStats.get?,
      TestValueCondition.is_set, TestValueCondition.unset, TestValueCondition.check_value,
      CondValue.check_eq, ApproxValue.check_eq, ApproxValue.tolerance, approx, rabs,
      DEFAULT_ABSOLUTE, TestResult.mark_as_success, TestResult.mark_as_fail, Except.map]

/-- Claim C2 witness: the derived condition and the SUCCESS verdict at the
concrete reference share 0.42 and current share 0.46. -/
theorem claim_C2_most_common_default_witness :
    TestMostCommonValueShare.get_condition "age" TestValueCondition.unset m46 =
      Except.ok { TestValueCondition.unset with
        eq := some (CondValue.approxVal
          (approx (refStats42.most_common_value_percentage / 100) (1/10))) } ∧
    (TestMostCommonValueShare.check "age" TestValueCondition.unset m46).map
      TestResult.status = Except.ok TestStatus.SUCCESS :=
  ⟨(claim_C2_most_common_default "age" TestValueCondition.unset m46 refMap42
      refStats42 (by decide)).1 rfl (by decide),
   (claim_C2_most_common_default "age" TestValueCondition.unset m46 refMap42
      refStats42 (by decide)).2.2.1⟩

/-- Claim C3: with no explicit condition, `TestShareOfOutRangeValues` and
`TestShareOfOutListValues` both derive a tolerant equality to 0 with the
default tolerances, and a metric result with `share_not_in_range = 0.03`
yields FAIL against that derived default. -/
theorem claim_C3_zero_tolerance_default (condition : TestValueCondition)
    (hcond : condition.is_set = false) :
    TestShareOfOutRangeValues.get_condition condition =
      { TestValueCondition.unset with
        eq := some (CondValue.approxVal (approxDefault 0)) } ∧
    TestShareOfOutListValues.get_condition condition =
      { TestValueCondition.unset with
        eq := some (CondValue.approxVal (approxDefault 0)) } ∧
    (TestShareOfOutRangeValues.check "feature1" TestValueCondition.unset
      ⟨7, 3/100⟩).map TestResult.status = Except.ok TestStatus.FAIL := by
  refine ⟨?_, ?_, ?_⟩
  · simp [TestShareOfOutRangeValues.get_condition, hcond]
  · simp [TestShareOfOutListValues.get_condition, hcond]
  · norm_num [TestShareOfOutRangeValues.check, baseCheckValue_check,
      TestShareOfOutRangeValues.get_condition,
      TestValueCondition.is_set, TestValueCondition.unset, TestValueCondition.check_value,
      CondValue.check_eq, ApproxValue.check_eq, ApproxValue.tolerance, approxDefault, rabs,
      DEFAULT_ABSOLUTE, DEFAULT_RELATIVE, TestResult.mark_as_success,
      TestResult.mark_as_fail, Except.map]

/-- Claim C3 witness: the derived zero-tolerance default at the unset
condition. -/
theorem claim_C3_zero_tolerance_default_witness :
    TestShareOfOutRangeValues.get_condition TestValueCondition.unset =
      { TestValueCondition.unset with
        eq := some (CondValue.approxVal (approxDefault 0)) } :=
  (claim_C3_zero_tolerance_default TestValueCondition.unset (by decide)).1

/-- Claim C4: with the column present in both current and reference feature
statistics, `TestMeanInNSigmas.check` returns a result that is SUCCESS iff
`reference_mean - n * reference_std < current_mean <
reference_mean + n * reference_std` (strict on both sides) and FAIL
otherwise; with reference mean 50, std 5 and `n = 2`, current mean 61 yields
FAIL and current mean 55 yields SUCCESS. -/
theorem claim_C4_mean_in_n_sigmas (column_name : String) (n_sigmas : ℚ)
    (m : DataQualityMetricsResults) (ref : DataFeatureStats)
    (href : m.reference_features_stats = some ref)
    (hcur : column_name ∈ m.features_stats.get_all_features)
    (hrefmem : column_name ∈ ref.get_all_features) :
    (∃ r, TestMeanInNSigmas.check column_name n_sigmas m = Except.ok r ∧
      (r.status = TestStatus.SUCCESS ↔
        (ref.getStats column_name).mean - n_sigmas * (ref.getStats column_name).std <
          (m.features_stats.getStats column_name).mean ∧
        (m.features_stats.getStats column_name).mean <
          (ref.getStats column_name).mean + n_sigmas * (ref.getStats column_name).std) ∧
      (r.status = TestStatus.SUCCESS ∨ r.status = TestStatus.FAIL)) ∧
    (TestMeanInNSigmas.check "age" 2 m61).map TestResult.status =
      Except.ok TestStatus.FAIL ∧
    (TestMeanInNSigmas.check "age" 2 m55).map TestResult.status =
      Except.ok TestStatus.SUCCESS := by
  refine ⟨?_, ?_, ?_⟩
  · simp only [TestMeanInNSigmas.check, href]
    rw [mul_comm n_sigmas ((ref.getStats column_name).std)]
    rw [if_pos hcur, if_pos hrefmem]
    by_cases hband :
      (ref.getStats column_name).mean - (ref.getStats column_name).std * n_sigmas <
        (m.features_stats.getStats column_name).mean ∧
      (m.features_stats.getStats column_name).mean <
        (ref.getStats column_name).mean + (ref.getStats column_name).std * n_sigmas
    · rw [if_pos hband]
      exact ⟨_, rfl, ⟨fun _ => hband, fun _ => rfl⟩, Or.inl rfl⟩
    · rw [if_neg hband]
      exact ⟨_, rfl, ⟨fun hs => TestStatus.noConfusion hs, fun hb => absurd hb hband⟩,
        Or.inr rfl⟩
  · norm_num [TestMeanInNSigmas.check, m61, refMap50s5, DataFeatureStats.get_all_features,
      DataFeatureStats.get?, DataFeatureStats.getStats, Except.map]
  · norm_num [TestMeanInNSigmas.check, m55, refMap50s5, DataFeatureStats.get_all_features,
      DataFeatureStats.get?, DataFeatureStats.getStats, Except.map]

/-- Claim C4 witness: the sigma-window verdict evaluated at current mean 61
against reference mean 50, std 5, `n = 2`. -/
theorem claim_C4_mean_in_n_sigmas_witness :
    (TestMeanInNSigmas.check "age" 2 m61).map TestResult.status =
      Except.ok TestStatus.FAIL :=
  (claim_C4_mean_in_n_sigmas "age" 2 m61 refMap50s5 rfl (by decide) (by decide)).2.1

/-- Claim C5: evaluating `TestMeanInNSigmas` against a metric result with no
reference feature statistics raises a ValueError to the caller instead of
being captured into an ERROR result. -/
theorem claim_C5_missing_reference_raises (column_name : String) (n_sigmas : ℚ)
    (fs : DataFeatureStats) :
    TestMeanInNSigmas.check column_name n_sigmas ⟨fs, none⟩ =
      Except.error (PyError.valueError "Reference should be present") := rfl

/-- Claim C6: two successive `check()` calls on the same test configuration,
the second starting from the Metric state the first call returned, produce
identical results — `check()` reads the cached snapshot and mutates
nothing. -/
theorem claim_C6_check_idempotent (name column_name : String)
    (calculate_value_for_test : DataQualityMetricsResults → Option ℚ)
    (get_description : DataQualityMetricsResults → ℚ → Except PyError String)
    (get_condition : DataQualityMetricsResults → Except PyError TestValueCondition)
    (n_sigmas : ℚ) (m : Metric DataQualityMetricsResults) :
    (featureCheck_call name column_name calculate_value_for_test get_description
        get_condition
        (featureCheck_call name column_name calculate_value_for_test get_description
          get_condition m).2).1 =
      (featureCheck_call name column_name calculate_value_for_test get_description
        get_condition m).1 ∧
    (TestMeanInNSigmas.check_call column_name n_sigmas
        (TestMeanInNSigmas.check_call column_name n_sigmas m).2).1 =
      (TestMeanInNSigmas.check_call column_name n_sigmas m).1 :=
  ⟨rfl, rfl⟩

/-- Claim C7: whenever a feature-level `check()` or `TestMeanInNSigmas.check`
returns a result (rather than raising), that result's status is one of the
terminal statuses SUCCESS, FAIL or ERROR — the seeded SKIPPED status is
overwritten on every return path. -/
theorem claim_C7_terminal_status :
    (∀ (name column_name : String)
      (calculate_value_for_test : DataQualityMetricsResults → Option ℚ)
      (get_description : DataQualityMetricsResults → ℚ → Except PyError String)
      (get_condition : DataQualityMetricsResults → Except PyError TestValueCondition)
      (m : DataQualityMetricsResults) (r : TestResult),
      featureCheck name column_name calculate_value_for_test get_description
          get_condition m = Except.ok r →
      r.status = TestStatus.SUCCESS ∨ r.status = TestStatus.FAIL ∨
        r.status = TestStatus.ERROR) ∧
    (∀ (column_name : String) (n_sigmas : ℚ) (m : DataQualityMetricsResults)
      (r : TestResult),
      TestMeanInNSigmas.check column_name n_sigmas m = Except.ok r →
      r.status = TestStatus.SUCCESS ∨ r.status = TestStatus.FAIL ∨
        r.status = TestStatus.ERROR) := by
  constructor
  · intro name column_name cvt dsc gcnd m r h
    simp only [featureCheck] at h
    split at h
    · split at h
      · injection h with h
        subst h
        exact Or.inr (Or.inr rfl)
      · split at h
        · simp at h
        · split at h
          · injection h with h
            subst h
            split
            · exact Or.inl rfl
            · exact Or.inr (Or.inl rfl)
          · injection h with h
            subst h
            exact Or.inr (Or.inr rfl)
          · simp at h
    · injection h with h
      subst h
      exact Or.inr (Or.inl rfl)
  · intro column_name n_sigmas m r h
    simp only [TestMeanInNSigmas.check] at h
    split at h
    · simp at h
    · split at h
      · split at h
        · split at h
          · injection h with h
            subst h
            exact Or.inl rfl
          · injection h with h
            subst h
            exact Or.inr (Or.inl rfl)
        · injection h with h
          subst h
          exact Or.inr (Or.inr rfl)
      · injection h with h
        subst h
        exact Or.inr (Or.inr rfl)

/-- Claim C7 witness: the two parts evaluated at concrete inputs — a feature
test that reaches SUCCESS and a mean-stability test that reaches the ERROR
path for a column missing from current data. -/
theorem claim_C7_terminal_status_witness :
    ((⟨"t", "d", TestStatus.SUCCESS⟩ : TestResult).status = TestStatus.SUCCESS ∨
      (⟨"t", "d", TestStatus.SUCCESS⟩ : TestResult).status = TestStatus.FAIL ∨
      (⟨"t", "d", TestStatus.SUCCESS⟩ : TestResult).status = TestStatus.ERROR) ∧
    ((⟨"Test Mean Value Stability", "Column age should be in current data",
        TestStatus.ERROR⟩ : TestResult).status = TestStatus.SUCCESS ∨
      (⟨"Test Mean Value Stability", "Column age should be in current data",
        TestStatus.ERROR⟩ : TestResult).status = TestStatus.FAIL ∨
      (⟨"Test Mean Value Stability", "Column age should be in current data",
        TestStatus.ERROR⟩ : TestResult).status = TestStatus.ERROR) :=
  ⟨claim_C7_terminal_status.1 "t" "age" (fun _ => some 1)
      (fun _ _ => Except.ok "d") (fun _ => Except.ok TestValueCondition.unset)
      mAgeOnly ⟨"t", "d", TestStatus.SUCCESS⟩ (by decide),
   claim_C7_terminal_status.2 "age" 2 mEmptyWithRef
      ⟨"Test Mean Value Stability", "Column age should be in current data",
        TestStatus.ERROR⟩ (by decide)⟩

/-- Claim C8 counterexample: `TestValueRange` constructed with an explicit
metric for column `"height"` together with construction parameters naming
column `"age"` and an interval — a conflict — succeeds without raising, so
conflicting construction does not universally fail at construction time. -/
theorem claim_C8_counterexample :
    TestValueRange.init "age" (some 0) (some 100) (some conflictingRangeMetric) =
      Except.ok ⟨"age", some 0, some 100, conflictingRangeMetric⟩ ∧
    conflictingRangeMetric.column ≠ "age" := by
  decide

/-- Claim C8 (amended): `TestValueQuantile` raises a ValueError at
construction time when given both an explicit metric and a non-None
`column_name` or `quantile`, but `TestValueRange` performs no conflict check:
its construction always succeeds, whatever metric and parameters are
supplied. -/
theorem claim_C8_construction_conflicts (c : Option String) (q : Option ℚ)
    (qm : DataQualityValueQuantileMetrics)
    (h : (c.isSome || q.isSome) = true) :
    TestValueQuantile.init c q (some qm) =
      Except.error (PyError.valueError "Test parameters and given  metric conflict") ∧
    ∀ (column_name : String) (left right : Option ℚ)
      (rm : Option DataQualityValueRangeMetrics),
      ∃ s, TestValueRange.init column_name left right rm = Except.ok s := by
  refine ⟨?_, ?_⟩
  · simp [TestValueQuantile.init, h]
  · intro column_name left right rm
    cases rm with
    | none => exact ⟨_, rfl⟩
    | some rmGiven => exact ⟨_, rfl⟩

/-- Claim C8 witness: the quantile-test conflict evaluated at an explicit
metric plus a non-None column name. -/
theorem claim_C8_construction_conflicts_witness :
    TestValueQuantile.init (some "age") none (some ⟨some "age", some (1/2)⟩) =
      Except.error (PyError.valueError "Test parameters and given  metric conflict") :=
  (claim_C8_construction_conflicts (some "age") none ⟨some "age", some (1/2)⟩
    (by decide)).1

/-- Claim C9: with an explicit metric, `TestValueQuantile.__init__` raises a
ValueError exactly when `column_name` or `quantile` is non-None, and the
explicit-metric path succeeds exactly when both are None. -/
theorem claim_C9_quantile_conflict (c : Option String) (q : Option ℚ)
    (qm : DataQualityValueQuantileMetrics) :
    (TestValueQuantile.init c q (some qm) =
        Except.error (PyError.valueError "Test parameters and given  metric conflict") ↔
      ¬(c = none ∧ q = none)) ∧
    ((∃ s, TestValueQuantile.init c q (some qm) = Except.ok s) ↔
      (c = none ∧ q = none)) := by
  cases c <;> cases q <;> simp [TestValueQuantile.init]

/-- Claim C10: `HighlyCorrelatedFeatures` and `CorrelationChanges` compute
the same value under test (`abs_max_num_features_correlation`) and render
the same description string. -/
theorem claim_C10_correlation_tests_agree
    (m : DataQualityCorrelationMetricsResults) (value : ℚ) :
    HighlyCorrelatedFeatures.calculate_value_for_test m =
      CorrelationChanges.calculate_value_for_test m ∧
    HighlyCorrelatedFeatures.get_description value =
      CorrelationChanges.get_description value :=
  ⟨rfl, rfl⟩

end Evidently
